import Mathlib

/-!
# Verification of the change-stream / cursor engine (deno_mongo2)

Shallow embedding of the change-stream engine (`ChangeStream`,
`ChangeStreamCursor`, file `src/unnamed/part_000`) and of the generic cursor
engine (`AbstractCursor` and its module-level helpers, file
`src/unnamed/part_001`).

Modelling conventions:
* Resume tokens, operation times and generic cursor documents are opaque BSON
  values in the source (`ResumeToken = unknown`, tokens are BSON documents,
  hence always truthy in JS); we model them as `Nat` and model JS
  present/absent (truthy/undefined-null) as `Option.isSome/none`.
* JS mutation becomes explicit state passing: each method is a function from
  the relevant state record to a new state record (plus emitted effects).
* `Long` cursor ids: the driver compares `this[kId] === Long.ZERO` by object
  identity.  `Long.ZERO` is only ever *assigned* by driver code (`kInit` when
  the response has no cursor, and `cleanupCursor`); ids taken from server
  responses go through `Long.fromNumber`/BSON and are fresh objects, never
  identical to the singleton.  `CursorId` reifies this: `longVal n` is a fresh
  Long of value `n`, `zeroSingleton` is the `Long.ZERO` object.
-/

namespace DenoMongo

/-- Opaque resume token (a BSON document in the source, always truthy). -/
abbrev Token := Nat

/-- Opaque operation time (`Timestamp`). -/
abbrev Stamp := Nat

/-- A change-stream document; only `_id` (the resume token) matters for the
claims.  `_id = none` models a document lacking `_id` (JS-falsy). -/
structure ChangeDoc where
  _id : Option Token
  deriving DecidableEq

/-- The option subset of `ChangeStreamCursorOptions` relevant to the resume
logic (`resumeAfter`, `startAfter`, `startAtOperationTime`); the remaining
`CURSOR_OPTIONS` keys (`batchSize`, `maxAwaitTimeMS`, `collation`,
`readPreference`, `comment`) never interact with the claims. -/
structure CSCOptions where
  resumeAfter : Option Token
  startAfter : Option Token
  startAtOperationTime : Option Stamp
  deriving DecidableEq

/-- State of a `ChangeStreamCursor` (part_000, lines 692-724), including the
buffer `kDocuments` inherited from `AbstractCursor` and the trace of
`resumeTokenChanged` emissions.  The fields `resumeAfter` and `startAfter`
mirror the class fields of the same names, which are *declared but never
assigned* anywhere in the source (the constructor only feeds
`options.startAfter` / `options.resumeAfter` into the `resumeToken` setter),
so in any run they hold `undefined`, i.e. `none`. -/
structure CSC where
  documents : List ChangeDoc
  _resumeToken : Option Token
  startAtOperationTime : Option Stamp
  hasReceived : Bool
  resumeAfter : Option Token
  startAfter : Option Token
  postBatchResumeToken : Option Token
  options : CSCOptions
  events : List Token
  deriving DecidableEq

/-- The `resumeToken` setter (part_000, lines 726-729): store the token and
emit `resumeTokenChanged`. -/
def setResumeToken (s : CSC) (token : Token) : CSC :=
  { s with _resumeToken := some token, events := s.events ++ [token] }

/-- `ChangeStreamCursor` constructor (part_000, lines 706-724):
`_resumeToken := null`, `startAtOperationTime := options.startAtOperationTime`,
then seed the resume token from `startAfter` (preferred) or `resumeAfter`
through the emitting setter.  The never-assigned class fields `resumeAfter`
and `startAfter` are `undefined` (`none`). -/
def cscCtor (opts : CSCOptions) : CSC :=
  let base : CSC :=
    { documents := []
      _resumeToken := none
      startAtOperationTime := opts.startAtOperationTime
      hasReceived := false
      resumeAfter := none
      startAfter := none
      postBatchResumeToken := none
      options := opts
      events := [] }
  match opts.startAfter with
  | some t => setResumeToken base t
  | none =>
    match opts.resumeAfter with
    | some t => setResumeToken base t
    | none => base

/-- `ChangeStreamCursor.cacheResumeToken` (part_000, lines 756-763). -/
def cacheResumeToken (s : CSC) (resumeToken : Token) : CSC :=
  let s' :=
    if s.documents.isEmpty && s.postBatchResumeToken.isSome then
      setResumeToken s (s.postBatchResumeToken.getD 0)
    else
      setResumeToken s resumeToken
  { s' with hasReceived := true }

/-- A server batch response as consumed by `_processBatch`: the optional
`cursor.postBatchResumeToken` and the batch (`firstBatch` of the initial
aggregate or `nextBatch` of a getMore; the source reads whichever key is
present). -/
structure BatchResp where
  postBatchResumeToken : Option Token
  batch : List ChangeDoc
  deriving DecidableEq

/-- `ChangeStreamCursor._processBatch` (part_000, lines 766-777). -/
def _processBatch (s : CSC) (resp : BatchResp) : CSC :=
  match resp.postBatchResumeToken with
  | some p =>
    let s' := { s with postBatchResumeToken := some p }
    if resp.batch.isEmpty then setResumeToken s' p else s'
  | none => s

/-- The state update performed by `ChangeStreamCursor._initialize` on a
successful aggregate response (part_000, lines 800-811): record
`response.operationTime` when `this.startAtOperationTime == null`,
`this.resumeAfter == null`, `this.startAfter == null` (the two class fields,
not the options!) and the selected server's `maxWireVersion` is at least 7;
then run `_processBatch` on the response.  `wv` stands for
`maxWireVersion(server)`, `opTime` for `response.operationTime`. -/
def csInitStep (s : CSC) (wv : Nat) (opTime : Stamp) (resp : BatchResp) : CSC :=
  let s' :=
    if s.startAtOperationTime.isNone && s.resumeAfter.isNone &&
        s.startAfter.isNone && decide (7 ≤ wv) then
      { s with startAtOperationTime := some opTime }
    else s
  _processBatch s' resp

end DenoMongo

namespace DenoMongo

/-- The resume-options snapshot record: only the three mutually exclusive
restart keys matter to the claims (the other copied `CURSOR_OPTIONS` keys are
independent of them). -/
structure ResumeOpts where
  resumeAfter : Option Token
  startAfter : Option Token
  startAtOperationTime : Option Stamp
  deriving DecidableEq

/-- Modelled from the spec: `filterOptions` (from `utils.ts`, which is not
part of the provided sources) copies the listed option keys that are present
on the input object — the spec's resume-options snapshot starts from "the
cursor options".  Restricted to the three restart keys. -/
def filterRestartOptions (opts : CSCOptions) : ResumeOpts :=
  { resumeAfter := opts.resumeAfter
    startAfter := opts.startAfter
    startAtOperationTime := opts.startAtOperationTime }

/-- `ChangeStreamCursor.resumeOptions` getter (part_000, lines 735-754).
`wv` stands for `maxWireVersion(this.server)` (0 when no server is set). -/
def resumeOptions (s : CSC) (wv : Nat) : ResumeOpts :=
  let result := filterRestartOptions s.options
  if s._resumeToken.isSome || s.startAtOperationTime.isSome then
    let cleared : ResumeOpts :=
      { resumeAfter := none, startAfter := none, startAtOperationTime := none }
    match s._resumeToken with
    | some tok =>
      if s.options.startAfter.isSome && !s.hasReceived then
        { cleared with startAfter := some tok }
      else
        { cleared with resumeAfter := some tok }
    | none =>
      if s.startAtOperationTime.isSome && decide (7 ≤ wv) then
        { cleared with startAtOperationTime := s.startAtOperationTime }
      else cleared
  else result

/-- Number of the restart keys `resumeAfter`/`startAfter`/`startAtOperationTime`
present on a resume-options snapshot. -/
def restartKeyCount (r : ResumeOpts) : Nat :=
  (if r.resumeAfter.isSome then 1 else 0) +
  (if r.startAfter.isSome then 1 else 0) +
  (if r.startAtOperationTime.isSome then 1 else 0)

/-- States of a `ChangeStreamCursor` reachable in the program: produced by the
constructor and transformed by `cacheResumeToken`, `_processBatch`, the
`_initialize` update, and buffer rewrites (`kInit` / getMore batch assignment
and `nextDocument` shifts, which only touch `kDocuments`). -/
inductive ReachableCSC : CSC → Prop
  | ctor (opts : CSCOptions) : ReachableCSC (cscCtor opts)
  | cache (s : CSC) (tok : Token) :
      ReachableCSC s → ReachableCSC (cacheResumeToken s tok)
  | batch (s : CSC) (resp : BatchResp) :
      ReachableCSC s → ReachableCSC (_processBatch s resp)
  | initStep (s : CSC) (wv : Nat) (opTime : Stamp) (resp : BatchResp) :
      ReachableCSC s → ReachableCSC (csInitStep s wv opTime resp)
  | buffer (s : CSC) (docs : List ChangeDoc) :
      ReachableCSC s → ReachableCSC { s with documents := docs }

/-- Invariant relating a cursor's options to its token fields: whenever the
construction options carried `resumeAfter` or `startAfter`, a resume token is
cached, and whenever they carried `startAtOperationTime`, the field holds a
stamp. -/
def cscInv (s : CSC) : Prop :=
  (s.options.resumeAfter.isSome ∨ s.options.startAfter.isSome →
    s._resumeToken.isSome) ∧
  (s.options.startAtOperationTime.isSome → s.startAtOperationTime.isSome)

/-- The mode flag `kMode` of a `ChangeStream`: `false | 'iterator' | 'emitter'`
(part_000, line 256). -/
inductive CSMode
  | unset
  | iterator
  | emitter
  deriving DecidableEq

/-- `ChangeStream._setIsIterator` (part_000, lines 444-452): throws
`MongoAPIError` (mode conflict) when the mode is `'emitter'`, otherwise sets
it to `'iterator'`.  `none` models the throw. -/
def setIsIterator : CSMode → Option CSMode
  | CSMode.emitter => none
  | _ => some CSMode.iterator

/-- `ChangeStream._setIsEmitter` (part_000, lines 433-441): throws
`MongoAPIError` (mode conflict) when the mode is `'iterator'`, otherwise sets
it to `'emitter'`.  `none` models the throw. -/
def setIsEmitter : CSMode → Option CSMode
  | CSMode.iterator => none
  | _ => some CSMode.emitter

/-- A public operation classified by the guard it runs: `next`, `tryNext` and
`hasNext` call `_setIsIterator`; attaching the first `change` listener and
`_streamEvents` call `_setIsEmitter` (part_000, lines 326-330, 352-353,
368, 423, 525). -/
inductive ModeOp
  | iteratorOp
  | emitterOp
  deriving DecidableEq

/-- Run one guard on the mode flag.  On a throw the flag is unchanged and the
operation fails (`false`). -/
def applyModeOp (m : CSMode) (op : ModeOp) : CSMode × Bool :=
  match op with
  | ModeOp.iteratorOp =>
    match setIsIterator m with
    | some m' => (m', true)
    | none => (m, false)
  | ModeOp.emitterOp =>
    match setIsEmitter m with
    | some m' => (m', true)
    | none => (m, false)

/-- Run a sequence of guarded operations, returning the final mode and the
per-operation success flags. -/
def runModeOps : CSMode → List ModeOp → CSMode × List Bool
  | m, [] => (m, [])
  | m, op :: ops =>
    let (m', ok) := applyModeOp m op
    let (mf, rs) := runModeOps m' ops
    (mf, ok :: rs)

/-- Outcome of `ChangeStream._processNewChange` (part_000, lines 544-574). -/
inductive PNCRes
  | calledBackClosedErr
  | silentClosed
  | closedRuntimeErr
  | closedNoResumeToken
  | delivered (d : ChangeDoc)
  deriving DecidableEq

/-- The `ChangeStream` engine state relevant to change delivery: the sticky
`kClosed` flag, the owned cursor slot, and the engine-level
`options.startAtOperationTime` (wiped on each delivered change). -/
structure CSEngine where
  closed : Bool
  cursor : Option CSC
  optStartAtOperationTime : Option Stamp

/-- `ChangeStream.close` as it affects the delivery state (part_000, lines
390-405): `kClosed` becomes true, the owned cursor is closed and the slot is
cleared; `_closeWithError` (lines 515-521) funnels into it. -/
def engineClose (e : CSEngine) : CSEngine :=
  { e with closed := true, cursor := none }

/-- `ChangeStream._processNewChange` (part_000, lines 544-574).  `change` is
the delivered document (`none` models the null sentinel from a closed
cursor); `hasCallback` distinguishes iterator mode (a caller callback) from
emitter mode.  A document whose `_id` is absent (JS-falsy) closes the stream
with the no-resume-token error; otherwise the token is cached on the owned
cursor (if any) and the engine-level `startAtOperationTime` is wiped. -/
def _processNewChange (e : CSEngine) (change : Option ChangeDoc)
    (hasCallback : Bool) : CSEngine × PNCRes :=
  if e.closed then
    (e, if hasCallback then PNCRes.calledBackClosedErr else PNCRes.silentClosed)
  else
    match change with
    | none => (engineClose e, PNCRes.closedRuntimeErr)
    | some d =>
      match d._id with
      | none => (engineClose e, PNCRes.closedNoResumeToken)
      | some tok =>
        ({ e with
            cursor := e.cursor.map (fun c => cacheResumeToken c tok)
            optStartAtOperationTime := none },
          PNCRes.delivered d)

/-- Error kinds distinguished by the embedded cursor engine. -/
inductive ErrKind
  | cursorExhausted
  | network
  | runtime
  | generic
  deriving DecidableEq

/-- Outcome delivered to a queued resume continuation by
`_processResumeQueue` / `_getCursor`. -/
inductive QOutcome
  | apiClosed
  | noCursorErr
  | okCursor
  | errOut (e : ErrKind)
  deriving DecidableEq

/-- The drain loop of `ChangeStream._processResumeQueue` (part_000, lines
663-681) on the queue listed back-to-front (head = the element `Denque.pop`
removes, i.e. the most recently pushed).  Each iteration pops one
continuation; with no error, observing `kClosed` (resp. a missing cursor)
delivers the closed (resp. no-cursor) error to that continuation and
*returns*, leaving the rest of the queue in place; otherwise the continuation
receives `(err, cursor)` and the loop continues.  Returns the remaining queue
(back-to-front) and the deliveries in order. -/
def drainQueueRev : List Nat → Bool → Bool → Option ErrKind →
    List Nat × List (Nat × QOutcome)
  | [], _, _, _ => ([], [])
  | request :: rest, closedFlag, cursorPresent, err =>
    match err with
    | some e =>
      let (rem, ds) := drainQueueRev rest closedFlag cursorPresent (some e)
      (rem, (request, QOutcome.errOut e) :: ds)
    | none =>
      if closedFlag then (rest, [(request, QOutcome.apiClosed)])
      else if !cursorPresent then (rest, [(request, QOutcome.noCursorErr)])
      else
        let (rem, ds) := drainQueueRev rest closedFlag cursorPresent none
        (rem, (request, QOutcome.okCursor) :: ds)

/-- `ChangeStream._processResumeQueue` (part_000, lines 663-681).  The queue
is listed front-to-back as pushed by `_getCursor` (`Denque.push` appends,
`Denque.pop` removes from the back).  `closedFlag` is `this[kClosed]`,
`cursorPresent` is whether `this.cursor` is set, `err` is the optional error
argument.  Returns the remaining queue (front-to-back) and the deliveries. -/
def processResumeQueue (queue : List Nat) (closedFlag cursorPresent : Bool)
    (err : Option ErrKind) : List Nat × List (Nat × QOutcome) :=
  let (remRev, ds) := drainQueueRev queue.reverse closedFlag cursorPresent err
  (remRev.reverse, ds)

/-- A generic cursor document (opaque). -/
abbrev Doc := Nat

/-- A `Long` cursor id as held in `kId`, distinguishing object identity with
the `Long.ZERO` singleton (see the header comment): `longVal n` is any Long
produced from a server response, `zeroSingleton` is the driver-assigned
`Long.ZERO`. -/
inductive CursorId
  | longVal (n : Int)
  | zeroSingleton
  deriving DecidableEq

/-- `Long.isZero()` on an optional id (`false` when unset). -/
def idIsZero : Option CursorId → Bool
  | some (CursorId.longVal n) => n = 0
  | some CursorId.zeroSingleton => true
  | none => false

/-- State of an `AbstractCursor` (part_001, lines 114-188).  `server` is
whether `kServer` is set; `kTransform` is the optional document transform;
sessions are not modelled (no claim mentions them). -/
structure ACursor where
  kId : Option CursorId
  documents : List Doc
  server : Bool
  inited : Bool
  kClosed : Bool
  kKilled : Bool
  loadBalanced : Bool
  kTransform : Option (Doc → Doc)

/-- Side effects of cleanup: how many times the `close` event was emitted and
how many `server.killCursors` calls were issued. -/
structure CloseEff where
  closeEmits : Nat
  kills : Nat
  deriving DecidableEq

/-- The options argument of `cleanupCursor`. -/
structure CleanupOpts where
  error : Option ErrKind
  needsToEmitClosed : Option Bool

/-- `error instanceof MongoNetworkError` on the optional cleanup error. -/
def cleanupErrIsNetwork : Option ErrKind → Bool
  | some ErrKind.network => true
  | _ => false

/-- `cleanupCursor` (part_001, lines 772-835).  The `needsToEmitClosed`
default is `kDocuments.length === 0`.  On a network error in load-balanced
mode, `completeCleanup` runs directly (emits `close`, no kill).  When the id
is unset or zero or no server is selected, the cursor is marked closed, its
id set to the `Long.ZERO` singleton and `close` emitted — but only when
`needsToEmitClosed` holds.  Otherwise the kill path sets `kKilled`, issues
`server.killCursors` and then `completeCleanup` emits `close`
*unconditionally*.  Session teardown is not modelled. -/
def cleanupCursor (s : ACursor) (opts : Option CleanupOpts) :
    ACursor × CloseEff :=
  let error := opts.bind (fun o => o.error)
  let ntec :=
    match opts.bind (fun o => o.needsToEmitClosed) with
    | some b => b
    | none => s.documents.isEmpty
  if error.isSome && s.loadBalanced && cleanupErrIsNetwork error then
    (s, { closeEmits := 1, kills := 0 })
  else if s.kId.isNone || !s.server || idIsZero s.kId then
    if ntec then
      ({ s with kClosed := true, kId := some CursorId.zeroSingleton },
        { closeEmits := 1, kills := 0 })
    else (s, { closeEmits := 0, kills := 0 })
  else
    ({ s with kKilled := true }, { closeEmits := 1, kills := 1 })

/-- `AbstractCursor.close` (part_001, lines 401-409): compute
`needsToEmitClosed = !this[kClosed]`, set `kClosed`, and run `cleanupCursor`
with that flag (no error). -/
def closeCall (s : ACursor) : ACursor × CloseEff :=
  let ntec := !s.kClosed
  cleanupCursor { s with kClosed := true }
    (some { error := none, needsToEmitClosed := some ntec })

/-- `nextDocument` (part_001, lines 696-712): shift the head of the buffer and
apply the transform, if any. -/
def nextDocument (s : ACursor) : ACursor × Option Doc :=
  match s.documents with
  | [] => (s, none)
  | d :: rest =>
    let s' := { s with documents := rest }
    match s.kTransform with
    | some f => (s', some (f d))
    | none => (s', some d)

/-- What one `next` call reports to its callback. -/
inductive NextRes
  | doc (d : Doc)
  | endNull
  | err (e : ErrKind)
  | needsInit
  | noResponse
  deriving DecidableEq

/-- A scripted `getMore` round-trip: the server's `{cursor: {id, nextBatch}}`
or a transport/server error. -/
inductive GetMoreResp
  | success (id : Int) (nextBatch : List Doc)
  | failure (e : ErrKind)

/-- Deliver the outcome of `callback(undefined, nextDocument(cursor))`: a
shifted document, or `null` end-of-stream when the buffer was empty. -/
def deliverDoc (p : ACursor × Option Doc) : ACursor × NextRes :=
  match p.2 with
  | some d => (p.1, NextRes.doc d)
  | none => (p.1, NextRes.endNull)

/-- The module-level `next` (part_001, lines 714-765), with the `getMore`
round-trips it performs scripted by `resps` (one response consumed per
issued `getMore`).  Fidelity notes: a closed cursor yields `null`
end-of-stream before anything else; a non-empty buffer is served before the
id is looked at; an unset id would enter `kInit` (reported as `needsInit`,
not needed by any claim); a dead id (`isZero`) runs cleanup and yields
`null`; a missing server makes `_getMore` fail with a runtime error
(part_001, lines 622-625), which takes the error path.  On a successful
`getMore` the buffer and id are assigned from the response (a numeric id
goes through `Long.fromNumber`, producing a fresh Long, never the
`Long.ZERO` singleton); a now-dead cursor is cleaned up (with
`needsToEmitClosed` defaulting to "buffer empty") and the first buffered
document (or `null`) is delivered (`deliverDoc` models
`callback(undefined, nextDocument(cursor))`); an empty batch with
`blocking = false` yields `null`; otherwise the loop re-enters. -/
def nextAux (blocking : Bool) : ACursor → List GetMoreResp →
    ACursor × NextRes
  | s, resps =>
    if s.kClosed then (s, NextRes.endNull)
    else if !s.documents.isEmpty then deliverDoc (nextDocument s)
    else if s.kId.isNone then (s, NextRes.needsInit)
    else if idIsZero s.kId then
      ((cleanupCursor s none).1, NextRes.endNull)
    else if !s.server then
      ((cleanupCursor s
          (some { error := some ErrKind.runtime, needsToEmitClosed := none })).1,
        NextRes.err ErrKind.runtime)
    else
      match resps with
      | [] => (s, NextRes.noResponse)
      | GetMoreResp.failure e :: _ =>
        ((cleanupCursor s
            (some { error := some e, needsToEmitClosed := none })).1,
          NextRes.err e)
      | GetMoreResp.success id batch :: rest =>
        let s1 := { s with documents := batch
                           kId := some (CursorId.longVal id) }
        if idIsZero s1.kId then
          deliverDoc (nextDocument (cleanupCursor s1
            (some { error := none, needsToEmitClosed := none })).1)
        else if batch.isEmpty && !blocking then (s1, NextRes.endNull)
        else nextAux blocking s1 rest

/-- `AbstractCursor.next` (part_001, lines 312-323): fail with
`MongoCursorExhaustedError` when `this[kId] === Long.ZERO` (object identity
with the singleton), else run the module-level `next`.  `blocking = true`
for `next`, `false` for `tryNext`. -/
def cursorNext (s : ACursor) (blocking : Bool) (resps : List GetMoreResp) :
    ACursor × NextRes :=
  if s.kId = some CursorId.zeroSingleton then
    (s, NextRes.err ErrKind.cursorExhausted)
  else nextAux blocking s resps

/-- Repeatedly call `next` (blocking, with no `getMore` responses available:
any attempt to contact the server would surface as `noResponse`), collecting
the reported results. -/
def drainResults : ACursor → Nat → List NextRes
  | _, 0 => []
  | s, n + 1 =>
    (cursorNext s true []).2 :: drainResults (cursorNext s true []).1 n

/-- Construction options with only `resumeAfter` set. -/
def sampleOptsRA : CSCOptions :=
  { resumeAfter := some 5, startAfter := none, startAtOperationTime := none }

/-- Construction options with only `startAfter` set. -/
def sampleOptsSA : CSCOptions :=
  { resumeAfter := none, startAfter := some 4, startAtOperationTime := none }

/-- A change-stream cursor state with an empty buffer and a cached
post-batch resume token. -/
def sampleCSC : CSC :=
  { documents := []
    _resumeToken := none
    startAtOperationTime := none
    hasReceived := false
    resumeAfter := none
    startAfter := none
    postBatchResumeToken := some 9
    options := { resumeAfter := none, startAfter := none,
                 startAtOperationTime := none }
    events := [] }

/-- An open engine owning `sampleCSC`. -/
def sampleEngine : CSEngine :=
  { closed := false, cursor := some sampleCSC, optStartAtOperationTime := none }

/-- An empty aggregate response carrying no post-batch token. -/
def emptyBatchResp : BatchResp :=
  { postBatchResumeToken := none, batch := [] }

/-- An initialized generic cursor with a live nonzero server cursor id. -/
def liveCursor : ACursor :=
  { kId := some (CursorId.longVal 42)
    documents := []
    server := true
    inited := true
    kClosed := false
    kKilled := false
    loadBalanced := false
    kTransform := none }

/-- A freshly constructed, never-initialized generic cursor. -/
def freshCursor : ACursor :=
  { kId := none
    documents := []
    server := false
    inited := false
    kClosed := false
    kKilled := false
    loadBalanced := false
    kTransform := none }

theorem setResumeToken_resumeToken (s : CSC) (t : Token) :
    (setResumeToken s t)._resumeToken = some t := rfl

theorem setResumeToken_options (s : CSC) (t : Token) :
    (setResumeToken s t).options = s.options := rfl

theorem processBatch_options (s : CSC) (r : BatchResp) :
    (_processBatch s r).options = s.options := by
  unfold _processBatch
  cases r.postBatchResumeToken <;> simp [setResumeToken_options]
  split <;> rfl

theorem processBatch_resumeToken_isSome (s : CSC) (r : BatchResp)
    (h : s._resumeToken.isSome) : (_processBatch s r)._resumeToken.isSome := by
  unfold _processBatch
  cases r.postBatchResumeToken <;> simp
  · exact h
  · split
    · simp [setResumeToken]
    · exact h

theorem processBatch_saot (s : CSC) (r : BatchResp) :
    (_processBatch s r).startAtOperationTime = s.startAtOperationTime := by
  unfold _processBatch
  cases r.postBatchResumeToken <;> simp [setResumeToken]
  split <;> rfl

theorem csInitStep_options (s : CSC) (wv : Nat) (t : Stamp) (r : BatchResp) :
    (csInitStep s wv t r).options = s.options := by
  unfold csInitStep
  rw [processBatch_options]
  split <;> rfl

theorem csInitStep_resumeToken_isSome (s : CSC) (wv : Nat) (t : Stamp)
    (r : BatchResp) (h : s._resumeToken.isSome) :
    (csInitStep s wv t r)._resumeToken.isSome := by
  unfold csInitStep
  apply processBatch_resumeToken_isSome
  split <;> exact h

theorem csInitStep_saot_isSome (s : CSC) (wv : Nat) (t : Stamp)
    (r : BatchResp) (h : s.startAtOperationTime.isSome) :
    (csInitStep s wv t r).startAtOperationTime.isSome := by
  unfold csInitStep
  rw [processBatch_saot]
  split
  · simp
  · exact h

theorem reachable_inv (s : CSC) (h : ReachableCSC s) : cscInv s := by
  induction h with
  | ctor opts =>
    unfold cscInv cscCtor
    cases hsa : opts.startAfter with
    | some t => simp [hsa, setResumeToken]
    | none =>
      cases hra : opts.resumeAfter with
      | some t => simp [hsa, hra, setResumeToken]
      | none => simp [hsa, hra]
  | cache s tok _ ih =>
    obtain ⟨_, ih2⟩ := ih
    constructor
    · intro _
      unfold cacheResumeToken
      split <;> simp [setResumeToken]
    · intro hopt
      have : (cacheResumeToken s tok).startAtOperationTime =
          s.startAtOperationTime := by
        unfold cacheResumeToken
        split <;> simp [setResumeToken]
      have hopt' : (cacheResumeToken s tok).options = s.options := by
        unfold cacheResumeToken
        split <;> simp [setResumeToken]
      rw [this]
      exact ih2 (hopt' ▸ hopt)
  | batch s resp _ ih =>
    obtain ⟨ih1, ih2⟩ := ih
    constructor
    · intro hsome
      exact processBatch_resumeToken_isSome s resp
        (ih1 (by rwa [processBatch_options] at hsome))
    · intro hopt
      rw [processBatch_saot]
      exact ih2 (by rwa [processBatch_options] at hopt)
  | initStep s wv opTime resp _ ih =>
    obtain ⟨ih1, ih2⟩ := ih
    constructor
    · intro hsome
      rw [csInitStep_options] at hsome
      exact csInitStep_resumeToken_isSome s wv opTime resp (ih1 hsome)
    · intro hopt
      rw [csInitStep_options] at hopt
      exact csInitStep_saot_isSome s wv opTime resp (ih2 hopt)
  | buffer s docs _ ih => exact ih

/-- Claim C1: for every change document `d` consumed through
`ChangeStream._processNewChange` (engine open, `d._id` present, a cursor
owned), the engine calls `ChangeStreamCursor.cacheResumeToken` with `d._id`,
and that call sets `resume_token` to `post_batch_resume_token` when the local
buffer is empty at that moment and a post-batch token is present, and to
`d._id` otherwise; in either case `has_received` becomes true. -/
theorem C1_processNewChange_caches_token (e : CSEngine) (c : CSC)
    (d : ChangeDoc) (tok : Token) (cb : Bool) (hcl : e.closed = false)
    (hc : e.cursor = some c) (hid : d._id = some tok) :
    (_processNewChange e (some d) cb).1.cursor =
      some (cacheResumeToken c tok) ∧
    (c.documents = [] ∧ c.postBatchResumeToken.isSome = true →
      (cacheResumeToken c tok)._resumeToken = c.postBatchResumeToken) ∧
    (¬(c.documents = [] ∧ c.postBatchResumeToken.isSome = true) →
      (cacheResumeToken c tok)._resumeToken = some tok) ∧
    (cacheResumeToken c tok).hasReceived = true := by
  refine ⟨?_, ?_, ?_, ?_⟩
  · simp [_processNewChange, hcl, hc, hid]
  · rintro ⟨hd, hp⟩
    obtain ⟨p, hp'⟩ := Option.isSome_iff_exists.mp hp
    simp [cacheResumeToken, setResumeToken, hd, hp']
  · intro hn
    have hcond : (c.documents.isEmpty && c.postBatchResumeToken.isSome) = false := by
      by_cases hd : c.documents = []
      · have hp : c.postBatchResumeToken.isSome = false := by
          by_cases hp' : c.postBatchResumeToken.isSome = true
          · exact absurd ⟨hd, hp'⟩ hn
          · simpa using hp'
        simp [hp]
      · simp [List.isEmpty_iff, hd]
    simp [cacheResumeToken, setResumeToken, hcond]
  · unfold cacheResumeToken
    split <;> simp [setResumeToken]

/-- Witness for C1 at a concrete open engine, cursor and document. -/
theorem C1_witness :
    (_processNewChange sampleEngine (some { _id := some 3 }) true).1.cursor =
      some (cacheResumeToken sampleCSC 3) ∧
    (cacheResumeToken sampleCSC 3)._resumeToken = some 9 ∧
    (cacheResumeToken sampleCSC 3).hasReceived = true := by
  have h := C1_processNewChange_caches_token sampleEngine sampleCSC
    { _id := some 3 } 3 true rfl rfl rfl
  refine ⟨h.1, ?_, h.2.2.2⟩
  have h2 := h.2.1 ⟨rfl, rfl⟩
  exact h2.trans (by decide)

/-- Claim C2: `ChangeStreamCursor._processBatch` stores the response's
`cursor.postBatchResumeToken` (when present) as `post_batch_resume_token`,
and when additionally the batch (`firstBatch`/`nextBatch`) is empty it sets
`resume_token` to that token. -/
theorem C2_processBatch_stores_token (s : CSC) (resp : BatchResp) (p : Token)
    (h : resp.postBatchResumeToken = some p) :
    (_processBatch s resp).postBatchResumeToken = some p ∧
    (resp.batch = [] → (_processBatch s resp)._resumeToken = some p) := by
  have key : _processBatch s resp =
      if resp.batch.isEmpty then
        setResumeToken { s with postBatchResumeToken := some p } p
      else { s with postBatchResumeToken := some p } := by
    unfold _processBatch
    rw [h]
  rw [key]
  constructor
  · split <;> simp [setResumeToken]
  · intro hb
    simp [hb, setResumeToken]

/-- Witness for C2 at a concrete empty batch carrying a post-batch token. -/
theorem C2_witness :
    (_processBatch sampleCSC { postBatchResumeToken := some 7, batch := [] }).postBatchResumeToken = some 7 ∧
    (_processBatch sampleCSC { postBatchResumeToken := some 7, batch := [] })._resumeToken = some 7 := by
  have h := C2_processBatch_stores_token sampleCSC
    { postBatchResumeToken := some 7, batch := [] } 7 rfl
  exact ⟨h.1, h.2 rfl⟩

/-- Claim C10: the `ChangeStreamCursor` constructor seeds `resumeToken` from
`startAfter` (taking precedence) or else `resumeAfter`, firing the
`resumeTokenChanged` event for that initial assignment, before any server
response; with neither option the token starts out null and no event
fires. -/
theorem C10_ctor_seeds_resumeToken (opts : CSCOptions) :
    (∀ t, opts.startAfter = some t →
      (cscCtor opts)._resumeToken = some t ∧ (cscCtor opts).events = [t]) ∧
    (opts.startAfter = none → ∀ t, opts.resumeAfter = some t →
      (cscCtor opts)._resumeToken = some t ∧ (cscCtor opts).events = [t]) ∧
    (opts.startAfter = none → opts.resumeAfter = none →
      (cscCtor opts)._resumeToken = none ∧ (cscCtor opts).events = []) := by
  refine ⟨?_, ?_, ?_⟩
  · intro t ht
    unfold cscCtor
    rw [ht]
    simp [setResumeToken]
  · intro hsa t hra
    unfold cscCtor
    rw [hsa, hra]
    simp [setResumeToken]
  · intro hsa hra
    unfold cscCtor
    rw [hsa, hra]
    simp

/-- Witness for C10 at construction options carrying both `startAfter` and
`resumeAfter` (startAfter wins). -/
theorem C10_witness :
    (cscCtor { resumeAfter := some 5, startAfter := some 4,
               startAtOperationTime := none })._resumeToken = some 4 ∧
    (cscCtor { resumeAfter := some 5, startAfter := some 4,
               startAtOperationTime := none }).events = [4] :=
  (C10_ctor_seeds_resumeToken _).1 4 rfl

/-- Claim C4 (divergence witness): a `ChangeStreamCursor` constructed with a
`resumeAfter` option (its resume token is seeded from it) still records
`response.operationTime` on initialization against a wire-version-7 server,
because `_initialize` consults the class fields `this.resumeAfter` /
`this.startAfter`, which are declared but never assigned, instead of the
options.  The claim's "only if none of the resumeAfter, startAfter,
startAtOperationTime options were set" is therefore violated. -/
theorem C4_initStep_records_despite_resumeAfter :
    (cscCtor sampleOptsRA).options.resumeAfter = some 5 ∧
    (cscCtor sampleOptsRA)._resumeToken = some 5 ∧
    (cscCtor sampleOptsRA).resumeAfter = none ∧
    (csInitStep (cscCtor sampleOptsRA) 7 99 emptyBatchResp).startAtOperationTime
      = some 99 := by decide

theorem resumeOptions_of_token (s : CSC) (wv : Nat) (tok : Token)
    (hrt : s._resumeToken = some tok) :
    resumeOptions s wv =
      (if s.options.startAfter.isSome && !s.hasReceived then
        { resumeAfter := none, startAfter := some tok,
          startAtOperationTime := none }
      else
        { resumeAfter := some tok, startAfter := none,
          startAtOperationTime := none }) := by
  unfold resumeOptions
  rw [hrt]
  simp only [Option.isSome_some, Bool.true_or, if_true]

theorem resumeOptions_no_token_saot (s : CSC) (wv : Nat) (ts : Stamp)
    (hrt : s._resumeToken = none) (hst : s.startAtOperationTime = some ts) :
    resumeOptions s wv =
      (if decide (7 ≤ wv) then
        { resumeAfter := none, startAfter := none,
          startAtOperationTime := some ts }
      else
        { resumeAfter := none, startAfter := none,
          startAtOperationTime := none }) := by
  unfold resumeOptions
  rw [hrt, hst]
  simp only [Option.isSome_none, Option.isSome_some, Bool.false_or, if_true,
    Bool.true_and]

theorem resumeOptions_neither (s : CSC) (wv : Nat)
    (hrt : s._resumeToken = none) (hst : s.startAtOperationTime = none) :
    resumeOptions s wv = filterRestartOptions s.options := by
  unfold resumeOptions
  rw [hrt, hst]
  rfl

/-- Claim C3: for every reachable `ChangeStreamCursor` state, the
`resumeOptions` snapshot contains at most one of
`resumeAfter`/`startAfter`/`startAtOperationTime`; with a cached resume
token it carries `startAfter := resume_token` exactly when the original
options had `startAfter` and `has_received` is still false, and otherwise
`resumeAfter := resume_token`; with no cached token but a recorded
`start_at_operation_time` and server wire version ≥ 7 it carries
`startAtOperationTime`.  `wv` is `maxWireVersion(this.server)`. -/
theorem C3_resumeOptions_exclusive (s : CSC) (wv : Nat)
    (hs : ReachableCSC s) :
    restartKeyCount (resumeOptions s wv) ≤ 1 ∧
    (∀ t, s._resumeToken = some t →
      (((resumeOptions s wv).startAfter = some t) ↔
        (s.options.startAfter.isSome = true ∧ s.hasReceived = false)) ∧
      (¬(s.options.startAfter.isSome = true ∧ s.hasReceived = false) →
        (resumeOptions s wv).resumeAfter = some t)) ∧
    (s._resumeToken = none → ∀ ts, s.startAtOperationTime = some ts →
      7 ≤ wv → (resumeOptions s wv).startAtOperationTime = some ts) := by
  obtain ⟨hinv1, hinv2⟩ := reachable_inv s hs
  cases hrt : s._resumeToken with
  | some tok =>
    rw [resumeOptions_of_token s wv tok hrt]
    refine ⟨?_, ?_, ?_⟩
    · split <;> simp [restartKeyCount]
    · intro t hrt'
      injection hrt' with htt
      subst htt
      by_cases hcond : (s.options.startAfter.isSome && !s.hasReceived) = true
      · obtain ⟨h1, h2⟩ := Bool.and_eq_true_iff.mp hcond
        rw [if_pos hcond]
        refine ⟨⟨fun _ => ⟨h1, by simpa using h2⟩, fun _ => rfl⟩, ?_⟩
        intro hn
        exact absurd ⟨h1, by simpa using h2⟩ hn
      · have hcond' : (s.options.startAfter.isSome && !s.hasReceived) = false :=
          Bool.eq_false_iff.mpr hcond
        rw [if_neg hcond]
        refine ⟨⟨fun hcontra => Option.noConfusion hcontra, ?_⟩, fun _ => rfl⟩
        rintro ⟨h1, h2⟩
        rw [h1] at hcond'
        simp [h2] at hcond'
    · exact fun hcontra => Option.noConfusion hcontra
  | none =>
    have hra : s.options.resumeAfter = none := by
      cases h : s.options.resumeAfter with
      | none => rfl
      | some v =>
        have := hinv1 (Or.inl (by simp [h]))
        rw [hrt] at this
        cases this
    have hsa : s.options.startAfter = none := by
      cases h : s.options.startAfter with
      | none => rfl
      | some v =>
        have := hinv1 (Or.inr (by simp [h]))
        rw [hrt] at this
        cases this
    cases hst : s.startAtOperationTime with
    | some ts =>
      rw [resumeOptions_no_token_saot s wv ts hrt hst]
      refine ⟨?_, ?_, ?_⟩
      · split <;> simp [restartKeyCount]
      · exact fun t hrt' => Option.noConfusion hrt'
      · intro _ ts' hts' hwv
        injection hts' with hts''
        subst hts''
        rw [if_pos (by simpa using hwv)]
    | none =>
      have hoo : s.options.startAtOperationTime = none := by
        cases h : s.options.startAtOperationTime with
        | none => rfl
        | some v =>
          have := hinv2 (by simp [h])
          rw [hst] at this
          cases this
      rw [resumeOptions_neither s wv hrt hst]
      refine ⟨?_, ?_, ?_⟩
      · simp [filterRestartOptions, restartKeyCount, hra, hsa, hoo]
      · exact fun t hrt' => Option.noConfusion hrt'
      · exact fun _ ts' hts' => Option.noConfusion hts'

/-- Witness for C3 at the reachable state constructed with `startAfter`:
the snapshot re-issues `startAfter` and carries exactly one restart key. -/
theorem C3_witness :
    (resumeOptions (cscCtor sampleOptsSA) 8).startAfter = some 4 ∧
    restartKeyCount (resumeOptions (cscCtor sampleOptsSA) 8) ≤ 1 := by
  have h := C3_resumeOptions_exclusive (cscCtor sampleOptsSA) 8
    (ReachableCSC.ctor sampleOptsSA)
  exact ⟨((h.2.1 4 (by decide)).1).mpr (by decide), h.1⟩

theorem runModeOps_iterator_eq (ops : List ModeOp) :
    runModeOps CSMode.iterator ops =
      (CSMode.iterator, ops.map (fun op => decide (op = ModeOp.iteratorOp))) := by
  induction ops with
  | nil => rfl
  | cons op rest ih =>
    cases op <;>
      simp [runModeOps, applyModeOp, setIsIterator, setIsEmitter, ih]

theorem runModeOps_emitter_eq (ops : List ModeOp) :
    runModeOps CSMode.emitter ops =
      (CSMode.emitter, ops.map (fun op => decide (op = ModeOp.emitterOp))) := by
  induction ops with
  | nil => rfl
  | cons op rest ih =>
    cases op <;>
      simp [runModeOps, applyModeOp, setIsIterator, setIsEmitter, ih]

/-- Claim C6: once the mode flag is `'iterator'` (set by the first successful
iterator operation via `_setIsIterator`), every subsequent emitter guard
(`_setIsEmitter`, run by the first `change` listener / `_streamEvents`)
fails with the mode-conflict `MongoAPIError` and the flag never leaves
`'iterator'`; symmetrically for `'emitter'`; and a successful guard always
sets its own mode. -/
theorem C6_mode_stickiness (ops : List ModeOp) :
    ((runModeOps CSMode.iterator ops).1 = CSMode.iterator ∧
      ∀ i : Nat, ops[i]? = some ModeOp.emitterOp →
        (runModeOps CSMode.iterator ops).2[i]? = some false) ∧
    ((runModeOps CSMode.emitter ops).1 = CSMode.emitter ∧
      ∀ i : Nat, ops[i]? = some ModeOp.iteratorOp →
        (runModeOps CSMode.emitter ops).2[i]? = some false) ∧
    (∀ m m', setIsIterator m = some m' → m' = CSMode.iterator) ∧
    (∀ m m', setIsEmitter m = some m' → m' = CSMode.emitter) := by
  refine ⟨⟨?_, ?_⟩, ⟨?_, ?_⟩, ?_, ?_⟩
  · rw [runModeOps_iterator_eq]
  · intro i hi
    rw [runModeOps_iterator_eq]
    simp only [List.getElem?_map, hi, Option.map_some']
    rfl
  · rw [runModeOps_emitter_eq]
  · intro i hi
    rw [runModeOps_emitter_eq]
    simp only [List.getElem?_map, hi, Option.map_some']
    rfl
  · intro m m' h
    cases m <;> simp_all [setIsIterator]
  · intro m m' h
    cases m <;> simp_all [setIsEmitter]

/-- Witness for C6: an emitter guard right after an iterator operation
fails and the mode stays `'iterator'`. -/
theorem C6_witness :
    (runModeOps CSMode.iterator [ModeOp.emitterOp]).2[0]? = some false ∧
    (runModeOps CSMode.iterator [ModeOp.emitterOp]).1 = CSMode.iterator :=
  ⟨(C6_mode_stickiness [ModeOp.emitterOp]).1.2 0 rfl,
    (C6_mode_stickiness [ModeOp.emitterOp]).1.1⟩

/-- Claim C5 counterexample: `_processResumeQueue` invoked with no error on a
closed engine and two queued continuations pops one continuation (the most
recently pushed, id 2), delivers it the closed error, and `return`s — the
queue still holds continuation 1 afterwards and continuation 1 receives no
outcome at all.  This refutes both "after any resume attempt concludes,
`resume_queue` is empty" and "every remaining queued continuation is still
delivered a closed error" at this input. -/
theorem C5_counterexample :
    (processResumeQueue [1, 2] true true none).1 = [1] ∧
    (processResumeQueue [1, 2] true true none).1 ≠ [] ∧
    (processResumeQueue [1, 2] true true none).2 =
      [(2, QOutcome.apiClosed)] := by decide

theorem drainQueueRev_err (q : List Nat) (cf cp : Bool) (e : ErrKind) :
    drainQueueRev q cf cp (some e) =
      ([], q.map (fun r => (r, QOutcome.errOut e))) := by
  induction q with
  | nil => rfl
  | cons r rest ih => simp [drainQueueRev, ih]

theorem drainQueueRev_ok (q : List Nat) :
    drainQueueRev q false true none =
      ([], q.map (fun r => (r, QOutcome.okCursor))) := by
  induction q with
  | nil => rfl
  | cons r rest ih => simp [drainQueueRev, ih]

/-- Claim C5, amended: `_processResumeQueue` with an error argument drains
the whole queue (back-to-front, via `Denque.pop`), delivering that error to
every continuation; with no error, an open engine and a present cursor it
likewise drains the whole queue, delivering the cursor; but with no error
and a closed engine (resp. an absent cursor) it delivers the closed
(resp. no-cursor) error only to the single continuation popped at that
iteration and stops, leaving all other continuations queued and without any
outcome. -/
theorem C5_amended_queue_drain (queue : List Nat)
    (closedFlag cursorPresent : Bool) (err : Option ErrKind) :
    (∀ e, err = some e →
      processResumeQueue queue closedFlag cursorPresent err =
        ([], queue.reverse.map (fun r => (r, QOutcome.errOut e)))) ∧
    (err = none → closedFlag = false → cursorPresent = true →
      processResumeQueue queue closedFlag cursorPresent err =
        ([], queue.reverse.map (fun r => (r, QOutcome.okCursor)))) ∧
    (err = none → closedFlag = true → ∀ r rest, queue.reverse = r :: rest →
      processResumeQueue queue closedFlag cursorPresent err =
        (rest.reverse, [(r, QOutcome.apiClosed)])) ∧
    (err = none → closedFlag = false → cursorPresent = false →
      ∀ r rest, queue.reverse = r :: rest →
      processResumeQueue queue closedFlag cursorPresent err =
        (rest.reverse, [(r, QOutcome.noCursorErr)])) := by
  refine ⟨?_, ?_, ?_, ?_⟩
  · intro e he
    subst he
    unfold processResumeQueue
    rw [drainQueueRev_err]
    rfl
  · intro he hc hp
    subst he; subst hc; subst hp
    unfold processResumeQueue
    rw [drainQueueRev_ok]
    rfl
  · intro he hc r rest hq
    subst he; subst hc
    unfold processResumeQueue
    rw [hq]
    simp [drainQueueRev]
  · intro he hc hp r rest hq
    subst he; subst hc; subst hp
    unfold processResumeQueue
    rw [hq]
    simp [drainQueueRev]

/-- Witness for the amended C5: with no error on an open engine with a
cursor, both queued continuations are delivered the cursor and the queue
empties. -/
theorem C5_witness :
    processResumeQueue [1, 2] false true none =
      ([], [(2, QOutcome.okCursor), (1, QOutcome.okCursor)]) := by
  have h := (C5_amended_queue_drain [1, 2] false true none).2.1 rfl rfl rfl
  exact h.trans (by decide)

/-- Claim C7 (divergence witness): on a cursor holding a live nonzero server
cursor id, the *second* `close()` call is not a no-op: `needsToEmitClosed`
is computed as `false` but the kill path of `cleanupCursor` ignores it, so
the second call kills the server cursor again and emits the `close` event a
second time (two emissions in total over the two calls). -/
theorem C7_second_close_reemits :
    (closeCall liveCursor).2 = { closeEmits := 1, kills := 1 } ∧
    (closeCall (closeCall liveCursor).1).2.closeEmits = 1 ∧
    (closeCall (closeCall liveCursor).1).2.kills = 1 ∧
    (closeCall liveCursor).2.closeEmits +
      (closeCall (closeCall liveCursor).1).2.closeEmits = 2 := by decide

theorem closeCall_kClosed (s : ACursor) : (closeCall s).1.kClosed = true := by
  unfold closeCall cleanupCursor
  dsimp only
  repeat' split
  all_goals rfl

theorem closeCall_documents (s : ACursor) :
    (closeCall s).1.documents = s.documents := by
  unfold closeCall cleanupCursor
  dsimp only
  repeat' split
  all_goals rfl

/-- Claim C8 counterexample: a cursor closed before initialization has its id
set to the `Long.ZERO` singleton by `cleanupCursor`, so the next `next()`
call fails with `MongoCursorExhaustedError` — an error, not the end-of-stream
null the claim promises for every closed cursor. -/
theorem C8_counterexample :
    (cursorNext (closeCall freshCursor).1 true []).2 =
      NextRes.err ErrKind.cursorExhausted ∧
    (cursorNext (closeCall freshCursor).1 true []).2 ≠ NextRes.endNull := by
  decide

/-- Claim C8, amended: `close()` preserves the buffered documents (available
to an explicit `readBufferedDocuments` drain) and leaves the cursor closed;
a subsequent `next()` then returns end-of-stream null — *unless* the close
left the id equal to the driver-assigned `Long.ZERO` singleton (the case of
a cursor closed while its id was unset or zero, e.g. before initialization),
in which case `next()` instead fails with `MongoCursorExhaustedError`. -/
theorem C8_amended_next_after_close (s0 : ACursor) (blocking : Bool)
    (resps : List GetMoreResp) :
    (closeCall s0).1.documents = s0.documents ∧
    ((closeCall s0).1.kId = some CursorId.zeroSingleton →
      (cursorNext (closeCall s0).1 blocking resps).2 =
        NextRes.err ErrKind.cursorExhausted) ∧
    ((closeCall s0).1.kId ≠ some CursorId.zeroSingleton →
      (cursorNext (closeCall s0).1 blocking resps).2 = NextRes.endNull) := by
  refine ⟨closeCall_documents s0, ?_, ?_⟩
  · intro h
    unfold cursorNext
    rw [if_pos h]
  · intro h
    unfold cursorNext
    rw [if_neg h]
    unfold nextAux
    rw [if_pos (closeCall_kClosed s0)]

/-- Witness for the amended C8: closing a live initialized cursor keeps its
(nonzero) id away from the singleton, and the following `next()` reports
end-of-stream null. -/
theorem C8_witness :
    (cursorNext (closeCall liveCursor).1 true []).2 = NextRes.endNull ∧
    (closeCall liveCursor).1.documents = liveCursor.documents := by
  have h := C8_amended_next_after_close liveCursor true []
  exact ⟨h.2.2 (by decide), h.1⟩

theorem cursorNext_buffer_pop (s : ACursor) (d : Doc) (rest : List Doc)
    (hcl : s.kClosed = false) (hdocs : s.documents = d :: rest)
    (hzs : s.kId ≠ some CursorId.zeroSingleton) (htr : s.kTransform = none) :
    cursorNext s true [] = ({ s with documents := rest }, NextRes.doc d) := by
  unfold cursorNext nextAux
  rw [if_neg hzs]
  simp [deliverDoc, nextDocument, hcl, hdocs, htr]

theorem cursorNext_dead_end (s : ACursor)
    (hcl : s.kClosed = false) (hdocs : s.documents = [])
    (hid : s.kId = some (CursorId.longVal 0)) :
    cursorNext s true [] = ((cleanupCursor s none).1, NextRes.endNull) := by
  unfold cursorNext nextAux
  simp [hcl, hdocs, hid, idIsZero]

theorem cursorNext_getMore_zero_nonempty (s : ACursor) (d : Doc)
    (ds : List Doc) (k : Int)
    (hcl : s.kClosed = false) (hdocs : s.documents = [])
    (hid : s.kId = some (CursorId.longVal k)) (hk : k ≠ 0)
    (hsrv : s.server = true) (htr : s.kTransform = none) :
    cursorNext s true [GetMoreResp.success 0 (d :: ds)] =
      ({ s with documents := ds, kId := some (CursorId.longVal 0) },
        NextRes.doc d) := by
  unfold cursorNext nextAux
  simp [deliverDoc, cleanupCursor, nextDocument, idIsZero, hcl, hdocs, hid, hk,
    hsrv, htr]

theorem drainResults_dead_cursor (ds : List Doc) :
    ∀ s : ACursor, s.kClosed = false → s.documents = ds →
      s.kId = some (CursorId.longVal 0) → s.kTransform = none →
      drainResults s (ds.length + 1) =
        ds.map NextRes.doc ++ [NextRes.endNull] := by
  induction ds with
  | nil =>
    intro s hcl hdocs hid htr
    unfold drainResults
    rw [cursorNext_dead_end s hcl hdocs hid]
    simp [drainResults]
  | cons d rest ih =>
    intro s hcl hdocs hid htr
    have hlen : (d :: rest).length + 1 = (rest.length + 1) + 1 := by simp
    rw [hlen]
    unfold drainResults
    rw [cursorNext_buffer_pop s d rest hcl hdocs (by simp [hid]) htr]
    dsimp only
    rw [ih { s with documents := rest } hcl rfl hid htr]
    simp

/-- Claim C9: a `getMore` response carrying cursor id 0 together with a
non-empty `nextBatch` delivers the first batched document at once, and each
subsequent `next` call yields the remaining documents in batch order,
followed by exactly one end-of-stream null — all without any further
`getMore` (the drain runs with no server responses available, and never
reports `noResponse`). -/
theorem C9_zero_id_batch_drained (s : ACursor) (d : Doc) (ds : List Doc)
    (k : Int) (hcl : s.kClosed = false) (hdocs : s.documents = [])
    (hid : s.kId = some (CursorId.longVal k)) (hk : k ≠ 0)
    (hsrv : s.server = true) (htr : s.kTransform = none) :
    (cursorNext s true [GetMoreResp.success 0 (d :: ds)]).2 =
      NextRes.doc d ∧
    drainResults (cursorNext s true [GetMoreResp.success 0 (d :: ds)]).1
        (ds.length + 1) = ds.map NextRes.doc ++ [NextRes.endNull] := by
  rw [cursorNext_getMore_zero_nonempty s d ds k hcl hdocs hid hk hsrv htr]
  exact ⟨rfl, drainResults_dead_cursor ds _ hcl rfl rfl htr⟩

/-- Witness for C9: the live cursor receives `{id: 0, nextBatch: [10,11,12]}`
and the three documents come out in order before the single end-of-stream
null. -/
theorem C9_witness :
    (cursorNext liveCursor true [GetMoreResp.success 0 [10, 11, 12]]).2 =
      NextRes.doc 10 ∧
    drainResults (cursorNext liveCursor true
        [GetMoreResp.success 0 [10, 11, 12]]).1 3 =
      [NextRes.doc 11, NextRes.doc 12, NextRes.endNull] := by
  have h := C9_zero_id_batch_drained liveCursor 10 [11, 12] 42 rfl rfl rfl
    (by decide) rfl rfl
  exact ⟨h.1, h.2.trans (by decide)⟩

end DenoMongo
